import Mathlib

/-!
Shallow embedding of the exchange-rate caching and conversion subsystem of
`valutatrade_hub` (rate store, freshness policy, direct/inverse/cross rate
resolution, multi-source update pipeline), together with proofs of the
spec-level properties.

Python `float` rates are modelled as exact rationals `ℚ`; JSON timestamps are
abstract `String`s with an explicit `fromisoformat` parse oracle where parsing
matters — a parsed datetime carries an awareness flag so that the
naive-minus-aware `TypeError` of `datetime.now() - dt` is represented; the
filesystem is an association list from path to content.
-/

set_option autoImplicit false

namespace ValutaTradeHub

/-! ## Data model (`data/rates.json` shape) -/

/-- One entry of the persisted `pairs` mapping: `{rate, updated_at, source}`. -/
structure RatePair where
  rate : ℚ
  updated_at : String
  source : String
deriving DecidableEq

/-- The `pairs` mapping of the rates snapshot, key `"FROM_TO"` → pair data. -/
abbrev Pairs := List (String × RatePair)

/-- The persisted store root `{pairs, last_refresh}`;
`last_refresh = none` models a missing key. -/
structure RatesData where
  pairs : Pairs
  last_refresh : Option String
deriving DecidableEq

/-! ## Python string primitives

Structurally recursive embeddings of the Python string methods the code uses
(`.upper()`, `.lower()`, `.strip()`, `.split(sep)`, `in`), so that every proof
obligation on concrete strings evaluates inside the kernel. -/

/-- Python `str.upper()` (character-wise). -/
def pyUpper (s : String) : String :=
  ⟨s.data.map Char.toUpper⟩

/-- Python `str.lower()` (character-wise). -/
def pyLower (s : String) : String :=
  ⟨s.data.map Char.toLower⟩

/-- Python `str.strip()`: drop leading and trailing whitespace. -/
def pyStrip (s : String) : String :=
  ⟨((s.data.dropWhile Char.isWhitespace).reverse.dropWhile
      Char.isWhitespace).reverse⟩

/-- Helper for `pySplitChar`, walking the character list. -/
def splitCharAux (sep : Char) : List Char → List Char → List String
  | [], acc => [⟨acc.reverse⟩]
  | c :: rest, acc =>
      if c = sep then ⟨acc.reverse⟩ :: splitCharAux sep rest []
      else splitCharAux sep rest (c :: acc)

/-- Python `str.split(sep)` for a one-character separator: `"A_B"` →
`["A", "B"]`, `"A"` → `["A"]`, `""` → `[""]`. -/
def pySplitChar (sep : Char) (s : String) : List String :=
  splitCharAux sep s.data []

/-! ## `core/utils.py`: rate resolution -/

/-- Embeds `is_currency_supported` from `core/currencies.py`: membership of the
upper-cased, stripped code in the currency registry (the registry is passed
explicitly as the list of its keys). -/
def is_currency_supported (supported : List String) (code : String) : Bool :=
  decide (pyStrip (pyUpper code) ∈ supported)

/-- Embeds `validate_currency_code` from `core/utils.py`: normalise the code and
either return it or raise `CurrencyNotFoundError` (modelled as `Except.error`). -/
def validate_currency_code (supported : List String) (code : String) :
    Except String String :=
  let c := pyStrip (pyUpper code)
  if is_currency_supported supported c then Except.ok c else Except.error c

/-- Embeds the inner helper `get_direct_rate` of `get_exchange_rate`
(`core/utils.py` lines 138-157): direct key `"FROM_TO"` first (used only when
its rate is positive), then the reverse key `"TO_FROM"` (reciprocal, again only
when positive), else `none`. -/
def get_direct_rate (pairs : Pairs) (from_c to_c : String) : Option ℚ :=
  let rate_key := from_c ++ "_" ++ to_c
  let direct : Option ℚ :=
    match pairs.lookup rate_key with
    | some pair_data => if 0 < pair_data.rate then some pair_data.rate else none
    | none => none
  match direct with
  | some r => some r
  | none =>
    let reverse_key := to_c ++ "_" ++ from_c
    match pairs.lookup reverse_key with
    | some pair_data =>
        if 0 < pair_data.rate then some (1 / pair_data.rate) else none
    | none => none

/-- Embeds `get_exchange_rate` (`core/utils.py` lines 100-173).
`rates_data = none` models a missing/degenerate store (falsy, non-dict, or
without a `"pairs"` dict).  A raised `CurrencyNotFoundError` is
`Except.error`; the Python `Optional[float]` result is `Option ℚ`. -/
def get_exchange_rate (supported : List String) (rates_data : Option RatesData)
    (from_currency to_currency : String) : Except String (Option ℚ) :=
  match validate_currency_code supported from_currency with
  | Except.error c => Except.error c
  | Except.ok from_c =>
    match validate_currency_code supported to_currency with
    | Except.error c => Except.error c
    | Except.ok to_c =>
      if from_c = to_c then Except.ok (some 1)
      else
        match rates_data with
        | none => Except.ok none
        | some rd =>
          match get_direct_rate rd.pairs from_c to_c with
          | some direct_rate => Except.ok (some direct_rate)
          | none =>
            if from_c ≠ "USD" ∧ to_c ≠ "USD" then
              match get_direct_rate rd.pairs from_c "USD",
                    get_direct_rate rd.pairs to_c "USD" with
              | some from_to_usd, some to_to_usd =>
                  if 0 < to_to_usd then Except.ok (some (from_to_usd / to_to_usd))
                  else Except.ok none
              | some _, none => Except.ok none
              | none, _ => Except.ok none
            else Except.ok none

/-! ## `core/utils.py`: freshness policy -/

/-- A `datetime` value as `datetime.fromisoformat` returns it: `aware` records
whether the parsed value carries `tzinfo` (a trailing `Z` or a UTC offset in
the string), `seconds` its timeline position in epoch seconds. -/
structure PyDatetime where
  aware : Bool
  seconds : ℚ
deriving DecidableEq

/-- Embeds `is_rates_cache_fresh` (`core/utils.py` lines 176-198) including
both failure paths of its `try`/`except`.  `parse_ts` is the
`datetime.fromisoformat` oracle (`none` = raises `ValueError`); `now` is the
*naive* `datetime.now()` clock in epoch seconds.  Inside the `try`,
`datetime.now() - last_refresh_dt` raises `TypeError` when the parsed
datetime is timezone-aware (naive minus aware), and the bare `except` turns
every such failure into `False`; only for a naive parsed datetime is the
cache fresh, iff its age is strictly below `ttl_seconds`.
`last_refresh = none` or `""` is falsy in Python, hence not fresh. -/
def is_rates_cache_fresh (ttl_seconds now : ℚ)
    (parse_ts : String → Option PyDatetime) (rates : RatesData) : Bool :=
  match rates.last_refresh with
  | none => false
  | some s =>
    if s = "" then false
    else
      match parse_ts s with
      | none => false
      | some dt =>
        if dt.aware then false
        else decide (now - dt.seconds < ttl_seconds)

/-! ## `parser_service/storage.py`: snapshot construction -/

/-- Dictionary `get` with default, over an association list. -/
def lookupD (m : List (String × String)) (k d : String) : String :=
  match m.lookup k with
  | some v => v
  | none => d

/-- Embeds the data constructed by `RatesStorage.save_current_rates`
(`parser_service/storage.py` lines 34-44): the snapshot written to
`rates.json` — each input pair verbatim with the run timestamp and its source
(default `"Unknown"`), plus `last_refresh` set to the same timestamp. -/
def save_current_rates_data (rates : List (String × ℚ))
    (source_map : List (String × String)) (timestamp : String) : RatesData :=
  { pairs := rates.map (fun pr =>
      (pr.1, { rate := pr.2, updated_at := timestamp,
               source := lookupD source_map pr.1 "Unknown" })),
    last_refresh := some timestamp }

/-- The timestamp string `save_current_rates` builds
(`parser_service/storage.py` line 34): `datetime.utcnow().isoformat() + "Z"`,
`iso` being the `isoformat()` part. -/
def save_timestamp (iso : String) : String := iso ++ "Z"

/-! ## `parser_service/storage.py`: atomic-write filesystem model -/

/-- A flat filesystem: association list of path → content. -/
abbrev FileSys := List (String × String)

/-- Removal of a file (`os.remove`, or what a rename does to its source). -/
def removeFile (fs : FileSys) (path : String) : FileSys :=
  fs.filter (fun e => e.1 != path)

/-- Writing (or overwriting) a whole file. -/
def setFile (fs : FileSys) (path content : String) : FileSys :=
  (path, content) :: removeFile fs path

/-- Reading a whole file, `none` when absent. -/
def readFile (fs : FileSys) (path : String) : Option String :=
  fs.lookup path

/-- Existence test for a file (`os.path.exists`). -/
def existsFile (fs : FileSys) (path : String) : Bool :=
  (fs.lookup path).isSome

/-- Embeds the write phase of `RatesStorage.save_current_rates`
(`parser_service/storage.py` lines 46-57): serialise into
`<rates_file>.tmp`, then `os.replace` it over `rates_file`.
`crash = some leftover` injects an exception during the temporary write
(`leftover` is the temp content reached when the exception hit, `none` inside
meaning the temp file was never created); the handler then removes the temp
file if it exists and re-raises.  `crash = none` is the success path. -/
def save_current_rates_fs (fs : FileSys) (rates_file content : String)
    (crash : Option (Option String)) : FileSys × Except String Unit :=
  let temp_file := rates_file ++ ".tmp"
  match crash with
  | some leftover =>
      let fs1 :=
        match leftover with
        | none => fs
        | some s => setFile fs temp_file s
      let fs2 := if existsFile fs1 temp_file then removeFile fs1 temp_file else fs1
      (fs2, Except.error "Failed to save rates")
  | none =>
      let fs1 := setFile fs temp_file content
      (setFile (removeFile fs1 temp_file) rates_file content, Except.ok ())

/-! ## `parser_service/storage.py`: history append -/

/-- One record of the append-only `exchange_rates.json` history log. -/
structure HistoryRecord where
  id : String
  from_currency : String
  to_currency : String
  rate : ℚ
  timestamp : String
  source : String
deriving DecidableEq

/-- Python `pair.split("_")` with tuple unpacking into exactly two names: any
other arity raises `ValueError` (modelled as `Except.error`). -/
def split_pair (pair : String) : Except String (String × String) :=
  match pySplitChar '_' pair with
  | [a, b] => Except.ok (a, b)
  | _ => Except.error pair

/-- The record built for one pair inside the `append_to_history` loop
(`parser_service/storage.py` lines 79-89). -/
def make_history_record (timestamp : String)
    (source_map : List (String × String)) (pr : String × ℚ) :
    Except String HistoryRecord :=
  match split_pair pr.1 with
  | Except.error e => Except.error e
  | Except.ok fc_tc =>
      Except.ok
        { id := pr.1 ++ "_" ++ timestamp,
          from_currency := fc_tc.1,
          to_currency := fc_tc.2,
          rate := pr.2,
          timestamp := timestamp,
          source := lookupD source_map pr.1 "Unknown" }

/-- Total variant of `make_history_record`, agreeing with it whenever the pair
key splits into exactly two parts; used to phrase its result. -/
def make_history_record_total (timestamp : String)
    (source_map : List (String × String)) (pr : String × ℚ) : HistoryRecord :=
  let parts := pySplitChar '_' pr.1
  { id := pr.1 ++ "_" ++ timestamp,
    from_currency := parts.headD "",
    to_currency := (parts.drop 1).headD "",
    rate := pr.2,
    timestamp := timestamp,
    source := lookupD source_map pr.1 "Unknown" }

/-- Embeds `RatesStorage.append_to_history` (`parser_service/storage.py` lines
59-98): load the existing history (`history` parameter), build one record per
input pair, and rewrite the whole file with the old records followed by the
new ones.  An exception while building a record (malformed pair key) aborts
before the write and propagates. -/
def append_to_history (history : List HistoryRecord)
    (rates : List (String × ℚ)) (source_map : List (String × String))
    (timestamp : String) : Except String (List HistoryRecord) :=
  match rates.mapM (make_history_record timestamp source_map) with
  | Except.ok recs => Except.ok (history ++ recs)
  | Except.error e => Except.error e

/-! ## `parser_service/updater.py`: update coordinator -/

/-- Substring test (Python `in` on strings). -/
def strContains (s sub : String) : Bool :=
  s.data.tails.any (fun t => sub.data.isPrefixOf t)

/-- The outcome of one client's `fetch_rates()` call: a rates mapping,
an `ApiRequestError`, or any other exception. -/
inductive FetchOutcome where
  | ok (rates : List (String × ℚ))
  | apiError (msg : String)
  | unexpectedError (msg : String)
deriving DecidableEq

/-- One configured API client: its class name and what `fetch_rates()` does
this run. -/
structure Client where
  name : String
  fetch : FetchOutcome
deriving DecidableEq

/-- The `source_filter` skip test at the top of the provider loop
(`parser_service/updater.py` lines 51-61). -/
def skip_client (source_filter : Option String) (client_name : String) : Bool :=
  match source_filter with
  | none => false
  | some sf =>
      (pyLower sf == "coingecko" && !(strContains client_name "CoinGecko")) ||
      (pyLower sf == "exchangerate" && !(strContains client_name "ExchangeRate"))

/-- Source attribution by client class name
(`parser_service/updater.py` lines 68-73). -/
def client_source (client_name : String) : String :=
  if strContains client_name "CoinGecko" then "CoinGecko"
  else if strContains client_name "ExchangeRate" then "ExchangeRate-API"
  else "Unknown"

/-- Python dict assignment `m[k] = v`: overwrite in place when the key exists
(keeping first-insertion order), else append. -/
def dictInsert {β : Type} (m : List (String × β)) (k : String) (v : β) :
    List (String × β) :=
  if m.any (fun e => e.1 == k) then
    m.map (fun e => if e.1 == k then (k, v) else e)
  else m ++ [(k, v)]

/-- The four accumulators of `run_update`:
`all_rates`, `source_map`, `errors`, `successful_sources`. -/
structure UpdState where
  all_rates : List (String × ℚ)
  source_map : List (String × String)
  errors : List String
  successful_sources : List String
deriving DecidableEq

/-- One iteration of the provider loop in `RatesUpdater.run_update`
(`parser_service/updater.py` lines 47-91). -/
def process_client (source_filter : Option String) (st : UpdState)
    (client : Client) : UpdState :=
  if skip_client source_filter client.name then st
  else
    match client.fetch with
    | FetchOutcome.ok rates =>
        let source := client_source client.name
        { st with
          all_rates := rates.foldl (fun m pr => dictInsert m pr.1 pr.2) st.all_rates,
          source_map := rates.foldl (fun m pr => dictInsert m pr.1 source) st.source_map,
          successful_sources := st.successful_sources ++ [client.name] }
    | FetchOutcome.apiError msg =>
        { st with
          errors := st.errors ++ ["✗ " ++ client.name ++ ": FAILED - " ++ msg] }
    | FetchOutcome.unexpectedError msg =>
        { st with
          errors := st.errors ++
            ["✗ " ++ client.name ++ ": UNEXPECTED ERROR - " ++ msg] }

/-- The aggregate result dict returned by `run_update`. -/
structure UpdateResult where
  success : Bool
  total_rates : Nat
  successful_sources : List String
  errors : List String
  timestamp : String
deriving DecidableEq

/-- Embeds `RatesUpdater.run_update` (`parser_service/updater.py` lines
28-121).  `persist` is the combined outcome of `save_current_rates` plus
`append_to_history` (attempted only when the merged set is non-empty; a
failure is recorded as one more error, not a fetch failure). -/
def run_update (clients : List Client) (source_filter : Option String)
    (persist : Except String Unit) (timestamp : String) : UpdateResult :=
  let st := clients.foldl (process_client source_filter)
    { all_rates := [], source_map := [], errors := [], successful_sources := [] }
  let errors :=
    if st.all_rates.isEmpty then st.errors
    else
      match persist with
      | Except.ok _ => st.errors
      | Except.error e => st.errors ++ ["Failed to save to storage: " ++ e]
  { success := decide (0 < st.all_rates.length),
    total_rates := st.all_rates.length,
    successful_sources := st.successful_sources,
    errors := errors,
    timestamp := timestamp }

/-! ## `parser_service/api_clients.py`: retry policy and the fiat client -/

/-- The observable outcome of one HTTP attempt inside `_fetch_with_retry`:
a parsed-JSON success (body abstract), HTTP 429, a timeout, a connection
failure, or any other `RequestException` (including `raise_for_status` on an
error status). -/
inductive AttemptOut where
  | success (body : String)
  | status429
  | timeout
  | connError
  | reqError (msg : String)
deriving DecidableEq

/-- The loop of `BaseApiClient._fetch_with_retry`
(`parser_service/api_clients.py` lines 55-83), recursing on the remaining
attempts; `attempt = max_retries - remaining`.  On 429 it sleeps `2^attempt`
seconds (recorded in `sleeps`) and retries; on timeout/connection/request
errors it raises on the last attempt and otherwise retries without sleeping;
an exhausted loop raises `Max retries exceeded`. -/
def fetch_with_retry_go (outcomes : Nat → AttemptOut) (max_retries : Nat) :
    Nat → List Nat → Except String String × List Nat
  | 0, sleeps => (Except.error "Max retries exceeded", sleeps)
  | rem + 1, sleeps =>
    let attempt := max_retries - (rem + 1)
    match outcomes attempt with
    | AttemptOut.success body => (Except.ok body, sleeps)
    | AttemptOut.status429 =>
        fetch_with_retry_go outcomes max_retries rem (sleeps ++ [2 ^ attempt])
    | AttemptOut.timeout =>
        if rem = 0 then (Except.error "Request timeout", sleeps)
        else fetch_with_retry_go outcomes max_retries rem sleeps
    | AttemptOut.connError =>
        if rem = 0 then (Except.error "Connection error", sleeps)
        else fetch_with_retry_go outcomes max_retries rem sleeps
    | AttemptOut.reqError msg =>
        if rem = 0 then (Except.error ("Request failed: " ++ msg), sleeps)
        else fetch_with_retry_go outcomes max_retries rem sleeps

/-- Embeds `BaseApiClient._fetch_with_retry`: `outcomes n` is what the `n`-th
HTTP attempt would observe; returns the result together with the list of
backoff sleeps performed (in seconds). -/
def fetch_with_retry (outcomes : Nat → AttemptOut) (max_retries : Nat) :
    Except String String × List Nat :=
  fetch_with_retry_go outcomes max_retries max_retries []

/-- A parsed response of the ExchangeRate-API endpoint as the fiat client
inspects it: HTTP status, the `result` field, the `error-type` field
(defaulted to `"unknown"` when absent) and the `conversion_rates` mapping. -/
structure FiatResponse where
  status_code : Nat
  result : String
  error_type : String
  conversion_rates : List (String × ℚ)
deriving DecidableEq

/-- The outcome of one HTTP request made by the fiat client. -/
inductive HttpOutcome where
  | response (r : FiatResponse)
  | timeout
  | connError
  | reqError (msg : String)
deriving DecidableEq

/-- Embeds `ExchangeRateApiClient.fetch_rates`
(`parser_service/api_clients.py` lines 133-188).  `http n` is the outcome of
the `n`-th HTTP request this call would make; the second component counts the
requests actually made.  The code performs a single `requests.get` with no
retry loop: 429, 403, other error statuses (via `raise_for_status`),
timeouts and connection failures all raise `ApiRequestError` immediately. -/
def exchangerate_fetch_rates (api_key : Option String)
    (fiat_currencies : List String) (base_currency : String)
    (http : Nat → HttpOutcome) : Except String (List (String × ℚ)) × Nat :=
  match api_key with
  | none => (Except.error "ExchangeRate-API key is not configured", 0)
  | some key =>
    if key = "" then (Except.error "ExchangeRate-API key is not configured", 0)
    else
      match http 0 with
      | HttpOutcome.timeout => (Except.error "Request timeout", 1)
      | HttpOutcome.connError => (Except.error "Connection error", 1)
      | HttpOutcome.reqError msg => (Except.error ("Request failed: " ++ msg), 1)
      | HttpOutcome.response r =>
        if r.status_code = 429 then
          (Except.error "Rate limit exceeded (429 Too Many Requests)", 1)
        else if r.status_code = 403 then
          (Except.error "Invalid API key (403 Forbidden)", 1)
        else if 400 ≤ r.status_code then
          (Except.error ("Request failed: HTTP error " ++ toString r.status_code), 1)
        else if r.result ≠ "success" then
          (Except.error ("API returned error: " ++ r.error_type), 1)
        else
          let rates := fiat_currencies.foldl (fun acc code =>
            if code = base_currency then acc
            else
              match r.conversion_rates.lookup code with
              | some v => if v ≠ 0 then acc ++ [(code ++ "_" ++ base_currency, 1 / v)] else acc
              | none => acc) []
          (Except.ok rates, 1)

/-- The default currency registry keys created by `core/currencies.py`. -/
def default_currency_codes : List String :=
  ["USD", "EUR", "GBP", "RUB", "JPY", "CNY",
   "BTC", "ETH", "USDT", "BNB", "SOL", "XRP"]

/-! ## Helper lemmas about rate resolution -/

theorem get_direct_rate_direct_hit {pairs : Pairs} {f t : String} {pd : RatePair}
    (h : pairs.lookup (f ++ "_" ++ t) = some pd) (hpos : 0 < pd.rate) :
    get_direct_rate pairs f t = some pd.rate := by
  simp [get_direct_rate, h, hpos]

theorem get_direct_rate_reverse_hit {pairs : Pairs} {f t : String} {pd : RatePair}
    (hd : pairs.lookup (f ++ "_" ++ t) = none)
    (hr : pairs.lookup (t ++ "_" ++ f) = some pd) (hpos : 0 < pd.rate) :
    get_direct_rate pairs f t = some (1 / pd.rate) := by
  simp [get_direct_rate, hd, hr, hpos]

theorem get_direct_rate_none_of_lookup_none {pairs : Pairs} {f t : String}
    (hd : pairs.lookup (f ++ "_" ++ t) = none)
    (hr : pairs.lookup (t ++ "_" ++ f) = none) :
    get_direct_rate pairs f t = none := by
  simp [get_direct_rate, hd, hr]

theorem get_direct_rate_pos {pairs : Pairs} {f t : String} {r : ℚ}
    (h : get_direct_rate pairs f t = some r) : 0 < r := by
  rcases hd : pairs.lookup (f ++ "_" ++ t) with _ | pd
  · rcases hr : pairs.lookup (t ++ "_" ++ f) with _ | pd2
    · rw [get_direct_rate_none_of_lookup_none hd hr] at h
      exact absurd h (by simp)
    · by_cases hpos : 0 < pd2.rate
      · rw [get_direct_rate_reverse_hit hd hr hpos] at h
        obtain rfl : 1 / pd2.rate = r := by simpa using h
        positivity
      · have hnone : get_direct_rate pairs f t = none := by
          simp [get_direct_rate, hd, hr, hpos]
        rw [hnone] at h
        exact absurd h (by simp)
  · by_cases hpos : 0 < pd.rate
    · rw [get_direct_rate_direct_hit hd hpos] at h
      obtain rfl : pd.rate = r := by simpa using h
      exact hpos
    · rcases hr : pairs.lookup (t ++ "_" ++ f) with _ | pd2
      · have hnone : get_direct_rate pairs f t = none := by
          simp [get_direct_rate, hd, hr, hpos]
        rw [hnone] at h
        exact absurd h (by simp)
      · by_cases hpos2 : 0 < pd2.rate
        · have hrevr : get_direct_rate pairs f t = some (1 / pd2.rate) := by
            simp [get_direct_rate, hd, hr, hpos, hpos2]
          rw [hrevr] at h
          obtain rfl : 1 / pd2.rate = r := by simpa using h
          positivity
        · have hnone : get_direct_rate pairs f t = none := by
            simp [get_direct_rate, hd, hr, hpos, hpos2]
          rw [hnone] at h
          exact absurd h (by simp)

/-! ## Claim theorems: resolution -/

/-- C7: `resolve(X, X)` returns `1.0` for any currency `X` that passes
validation, regardless of the store contents (the result does not depend on
`rates_data` at all). -/
theorem resolve_identity (supported : List String)
    (rates_data : Option RatesData) (X c : String)
    (hval : validate_currency_code supported X = Except.ok c) :
    get_exchange_rate supported rates_data X X = Except.ok (some 1) := by
  unfold get_exchange_rate
  rw [hval]
  simp

/-- Concrete instance of `resolve_identity`: `resolve("btc ", "btc ") = 1`
even against an empty store. -/
theorem resolve_identity_witness :
    get_exchange_rate default_currency_codes (some ⟨[], none⟩) "btc " "btc " =
      Except.ok (some 1) :=
  resolve_identity default_currency_codes (some ⟨[], none⟩) "btc " "BTC" (by rfl)

/-- C6: for a store holding exactly one direction `FROM_TO` of a pair with a
positive rate (and no reverse entry), the forward query returns the stored
rate and the reverse query returns its reciprocal, so
`resolve(to, from) = 1 / resolve(from, to)` exactly. -/
theorem inverse_consistency (supported : List String) (pairs : Pairs)
    (lr : Option String) (f t : String) (pd : RatePair)
    (hf : validate_currency_code supported f = Except.ok f)
    (ht : validate_currency_code supported t = Except.ok t)
    (hft : f ≠ t)
    (hdir : pairs.lookup (f ++ "_" ++ t) = some pd)
    (hpos : 0 < pd.rate)
    (hrev : pairs.lookup (t ++ "_" ++ f) = none) :
    get_exchange_rate supported (some ⟨pairs, lr⟩) f t = Except.ok (some pd.rate) ∧
    get_exchange_rate supported (some ⟨pairs, lr⟩) t f =
      Except.ok (some (1 / pd.rate)) := by
  constructor
  · unfold get_exchange_rate
    rw [hf, ht]
    simp only [get_direct_rate_direct_hit hdir hpos, if_neg hft]
  · unfold get_exchange_rate
    rw [hf, ht]
    simp only [get_direct_rate_reverse_hit hrev hdir hpos, if_neg (Ne.symm hft)]

/-- Concrete instance of `inverse_consistency`: store `{BTC_USD: 50000}`,
forward `BTC→USD = 50000`, reverse `USD→BTC = 1/50000 = 0.00002`. -/
theorem inverse_consistency_witness :
    get_exchange_rate default_currency_codes
        (some ⟨[("BTC_USD", ⟨50000, "t", "CoinGecko"⟩)], none⟩) "BTC" "USD" =
      Except.ok (some 50000) ∧
    get_exchange_rate default_currency_codes
        (some ⟨[("BTC_USD", ⟨50000, "t", "CoinGecko"⟩)], none⟩) "USD" "BTC" =
      Except.ok (some (1 / 50000)) :=
  inverse_consistency default_currency_codes
    [("BTC_USD", ⟨50000, "t", "CoinGecko"⟩)] none "BTC" "USD"
    ⟨50000, "t", "CoinGecko"⟩ (by rfl) (by rfl) (by decide) (by rfl)
    (by decide) (by rfl)

/-- C2: with `A_USD = a > 0` and `B_USD = b > 0` stored, `A`, `B` distinct
supported non-pivot currencies and no direct `A_B` / inverse `B_A` entry,
`resolve(A, B) = a / b` (single-hop triangulation through `USD`). -/
theorem cross_rate_consistency (supported : List String) (pairs : Pairs)
    (lr : Option String) (A B : String) (pdA pdB : RatePair)
    (hA : validate_currency_code supported A = Except.ok A)
    (hB : validate_currency_code supported B = Except.ok B)
    (hAB : A ≠ B) (hAusd : A ≠ "USD") (hBusd : B ≠ "USD")
    (hApair : pairs.lookup (A ++ "_" ++ "USD") = some pdA) (hApos : 0 < pdA.rate)
    (hBpair : pairs.lookup (B ++ "_" ++ "USD") = some pdB) (hBpos : 0 < pdB.rate)
    (hnoAB : pairs.lookup (A ++ "_" ++ B) = none)
    (hnoBA : pairs.lookup (B ++ "_" ++ A) = none) :
    get_exchange_rate supported (some ⟨pairs, lr⟩) A B =
      Except.ok (some (pdA.rate / pdB.rate)) := by
  unfold get_exchange_rate
  rw [hA, hB]
  simp only [if_neg hAB, get_direct_rate_none_of_lookup_none hnoAB hnoBA,
    get_direct_rate_direct_hit hApair hApos, get_direct_rate_direct_hit hBpair hBpos,
    if_pos (And.intro hAusd hBusd), if_pos hBpos]

/-- Concrete instance of `cross_rate_consistency`: `EUR_USD = 2`,
`GBP_USD = 4` gives `resolve("EUR", "GBP") = 2 / 4`. -/
theorem cross_rate_consistency_witness :
    get_exchange_rate default_currency_codes
        (some ⟨[("EUR_USD", ⟨2, "t", "s"⟩), ("GBP_USD", ⟨4, "t", "s"⟩)], none⟩)
        "EUR" "GBP" =
      Except.ok (some ((2 : ℚ) / 4)) :=
  cross_rate_consistency default_currency_codes
    [("EUR_USD", ⟨2, "t", "s"⟩), ("GBP_USD", ⟨4, "t", "s"⟩)] none
    "EUR" "GBP" ⟨2, "t", "s"⟩ ⟨4, "t", "s"⟩
    (by rfl) (by rfl) (by decide) (by decide) (by decide)
    (by rfl) (by decide) (by rfl) (by decide) (by rfl) (by rfl)

/-- C10: whenever `get_exchange_rate` returns a rate rather than `None`, that
rate is strictly positive, across all four resolution paths (identity,
direct, inverse, cross-pivot). -/
theorem resolved_rate_positive (supported : List String)
    (rates_data : Option RatesData) (from_c to_c : String) (r : ℚ)
    (h : get_exchange_rate supported rates_data from_c to_c = Except.ok (some r)) :
    0 < r := by
  unfold get_exchange_rate at h
  split at h
  · exact absurd h (by simp)
  · split at h
    · exact absurd h (by simp)
    · split at h
      · obtain rfl : (1 : ℚ) = r := by simpa using h
        norm_num
      · split at h
        · exact absurd h (by simp)
        · -- store present: the direct lookup, then the cross-pivot path
          split at h
          · rename_i d heq
            obtain rfl : d = r := by simpa using h
            exact get_direct_rate_pos heq
          · split at h
            · split at h
              · rename_i a b heqA heqB
                split at h
                · rename_i hBpos
                  obtain rfl : a / b = r := by simpa using h
                  exact div_pos (get_direct_rate_pos heqA) hBpos
                · exact absurd h (by simp)
              · exact absurd h (by simp)
              · exact absurd h (by simp)
            · exact absurd h (by simp)

/-- Concrete instance of `resolved_rate_positive` on the cross-pivot path. -/
theorem resolved_rate_positive_witness : (0 : ℚ) < (2 : ℚ) / 4 :=
  resolved_rate_positive default_currency_codes
    (some ⟨[("EUR_USD", ⟨2, "t", "s"⟩), ("GBP_USD", ⟨4, "t", "s"⟩)], none⟩)
    "EUR" "GBP" ((2 : ℚ) / 4) (by rfl)

/-! ## Claim theorems: freshness policy -/

/-- Supporting characterisation: the cache is reported fresh exactly when
`last_refresh` is present, non-empty, parses to a *naive* datetime (the only
case where `datetime.now() - dt` does not raise), and the age is strictly
below the TTL.  This is the intended TTL logic; the pipeline never reaches
it because of the `Z`-suffix bug below. -/
theorem is_rates_cache_fresh_iff (ttl now : ℚ)
    (parse_ts : String → Option PyDatetime) (rd : RatesData) :
    is_rates_cache_fresh ttl now parse_ts rd = true ↔
      ∃ s dt, rd.last_refresh = some s ∧ s ≠ "" ∧ parse_ts s = some dt ∧
        dt.aware = false ∧ now - dt.seconds < ttl := by
  unfold is_rates_cache_fresh
  rcases hlr : rd.last_refresh with _ | s
  · simp
  · by_cases hs : s = ""
    · subst hs
      simp
    · rcases hp : parse_ts s with _ | dt
      · simp [hs, hp]
      · rcases haw : dt.aware with _ | _
        · simp [hs, hp, haw]
        · simp [hs, hp, haw]

/-- C3 (code bug): the save/read timestamp formats are inconsistent, so the
cache is *never* reported fresh for a snapshot this pipeline writes, for any
clock value and any TTL — falsifying the claim's save-then-fresh clause.
`save_current_rates` stamps `last_refresh` with
`datetime.utcnow().isoformat() + "Z"`; `datetime.fromisoformat` either
rejects the `Z` suffix (Python < 3.11, `ValueError`) or parses it to a
timezone-aware datetime (Python ≥ 3.11), in which case naive
`datetime.now()` minus an aware datetime raises `TypeError`; the bare
`except` converts both failures to `False`.  The hypothesis `hz` states
exactly this `fromisoformat` behaviour: a `Z`-suffixed string never parses
to a naive datetime. -/
theorem fresh_after_save_never (ttl now : ℚ)
    (parse_ts : String → Option PyDatetime)
    (hz : ∀ s dt, parse_ts (s ++ "Z") = some dt → dt.aware = true)
    (rates : List (String × ℚ)) (source_map : List (String × String))
    (iso : String) :
    is_rates_cache_fresh ttl now parse_ts
      (save_current_rates_data rates source_map (save_timestamp iso)) =
        false := by
  have hne : save_timestamp iso ≠ "" := by
    intro h
    have hlen := congrArg String.length h
    rw [save_timestamp, String.length_append] at hlen
    have h1 : ("Z" : String).length = 1 := rfl
    have h0 : ("" : String).length = 0 := rfl
    omega
  rcases hp : parse_ts (save_timestamp iso) with _ | dt
  · simp [is_rates_cache_fresh, save_current_rates_data, hne, hp]
  · have haw : dt.aware = true := hz iso dt hp
    simp [is_rates_cache_fresh, save_current_rates_data, hne, hp, haw]

/-- Concrete instance of `fresh_after_save_never`: a parse oracle that reads
the written `Z`-suffixed timestamp back as an aware datetime at epoch
second 0; even querying at `now = 0` (zero elapsed time) with a 300-second
TTL, the cache is not fresh. -/
theorem fresh_after_save_never_witness :
    is_rates_cache_fresh 300 0 (fun _ => some ⟨true, 0⟩)
      (save_current_rates_data [("BTC_USD", 50000)] []
        (save_timestamp "2024-01-01T00:00:00")) = false :=
  fresh_after_save_never 300 0 (fun _ => some ⟨true, 0⟩)
    (fun _ _ h => Option.some.inj h ▸ rfl)
    [("BTC_USD", 50000)] [] "2024-01-01T00:00:00"

/-! ## Claim theorems: the rate > 0 storage invariant (C5) -/

/-- C5 counterexample: `save_current_rates` does not filter non-positive
rates — saving the mapping `{BTC_USD: 0}` writes a pair whose rate is `0`,
so "every pair written to the rates file has rate > 0" is false. -/
theorem nonpositive_rate_stored_counterexample :
    ¬ (∀ pr ∈ (save_current_rates_data [("BTC_USD", 0)] [] "T").pairs,
        0 < pr.2.rate) := by
  intro h
  have := h ("BTC_USD", ⟨0, "T", "Unknown"⟩) (by simp [save_current_rates_data, lookupD])
  exact absurd this (by decide)

/-- C5 amended: `save_current_rates` writes the given rate mapping verbatim
(non-positive rates included); the invariant is enforced on the read side —
a stored pair whose rate is `≤ 0` is treated as absent by both the direct
and the inverse lookup of `get_direct_rate`. -/
theorem rates_stored_verbatim_nonpos_absent_on_read :
    (∀ (rates : List (String × ℚ)) (source_map : List (String × String))
        (ts : String),
      (save_current_rates_data rates source_map ts).pairs.map
          (fun pr => (pr.1, pr.2.rate)) = rates) ∧
    (∀ (pairs : Pairs) (f t : String),
      (∀ pd, pairs.lookup (f ++ "_" ++ t) = some pd → pd.rate ≤ 0) →
      (∀ pd, pairs.lookup (t ++ "_" ++ f) = some pd → pd.rate ≤ 0) →
      get_direct_rate pairs f t = none) := by
  constructor
  · intro rates source_map ts
    induction rates with
    | nil => rfl
    | cons pr rest ih => simpa [save_current_rates_data] using ih
  · intro pairs f t hd hr
    rcases h1 : pairs.lookup (f ++ "_" ++ t) with _ | pd
    · rcases h2 : pairs.lookup (t ++ "_" ++ f) with _ | pd2
      · exact get_direct_rate_none_of_lookup_none h1 h2
      · have := hr pd2 h2
        simp [get_direct_rate, h1, h2, not_lt.mpr this]
    · have hle := hd pd h1
      rcases h2 : pairs.lookup (t ++ "_" ++ f) with _ | pd2
      · simp [get_direct_rate, h1, h2, not_lt.mpr hle]
      · have hle2 := hr pd2 h2
        simp [get_direct_rate, h1, h2, not_lt.mpr hle, not_lt.mpr hle2]

/-- Concrete instance of `rates_stored_verbatim_nonpos_absent_on_read`: a
stored `A_B` pair with rate `0` is invisible to `get_direct_rate`. -/
theorem rates_stored_verbatim_nonpos_absent_on_read_witness :
    get_direct_rate [("A_B", ⟨0, "t", "s"⟩)] "A" "B" = none :=
  rates_stored_verbatim_nonpos_absent_on_read.2
    [("A_B", ⟨0, "t", "s"⟩)] "A" "B"
    (by
      intro pd h
      rw [show List.lookup ("A" ++ "_" ++ "B")
          [("A_B", (⟨0, "t", "s"⟩ : RatePair))] = some ⟨0, "t", "s"⟩ from rfl] at h
      obtain rfl := Option.some.inj h
      decide)
    (by
      intro pd h
      exact Option.noConfusion h)

/-! ## Filesystem lemmas and the atomic-save claim (C8) -/

theorem lookup_removeFile_ne (fs : FileSys) (p q : String) (h : p ≠ q) :
    (removeFile fs q).lookup p = fs.lookup p := by
  induction fs with
  | nil => rfl
  | cons e rest ih =>
    obtain ⟨k, v⟩ := e
    by_cases hk : k = q
    · subst hk
      have hpk : (p == k) = false := by simp [h]
      simp [removeFile, List.filter_cons, List.lookup, hpk]
      simpa [removeFile] using ih
    · by_cases hpk : p = k
      · subst hpk
        simp [removeFile, List.filter_cons, hk, List.lookup]
      · have h1 : (p == k) = false := by simp [hpk]
        simp [removeFile, List.filter_cons, hk, List.lookup, h1]
        simpa [removeFile] using ih

theorem lookup_removeFile_self (fs : FileSys) (q : String) :
    (removeFile fs q).lookup q = none := by
  induction fs with
  | nil => rfl
  | cons e rest ih =>
    obtain ⟨k, v⟩ := e
    by_cases hk : k = q
    · simpa [removeFile, List.filter_cons, hk] using ih
    · have h1 : (q == k) = false := by simp [Ne.symm hk]
      have h2 : (k != q) = true := by simp [hk]
      simp [removeFile, List.filter_cons, h2, List.lookup, h1]
      simpa [removeFile] using ih

theorem lookup_setFile_ne (fs : FileSys) (p q c : String) (h : p ≠ q) :
    (setFile fs q c).lookup p = fs.lookup p := by
  have h1 : (p == q) = false := by simp [h]
  simp [setFile, List.lookup, h1, lookup_removeFile_ne fs p q h]

theorem existsFile_setFile_self (fs : FileSys) (p c : String) :
    existsFile (setFile fs p c) p = true := by
  simp [existsFile, setFile, List.lookup]

theorem ne_append_tmp (s : String) : s ≠ s ++ ".tmp" := by
  intro h
  have hlen := congrArg String.length h
  rw [String.length_append] at hlen
  have h4 : (".tmp" : String).length = 4 := rfl
  omega

theorem save_crash_fs_some (fs : FileSys) (rates_file content s : String) :
    (save_current_rates_fs fs rates_file content (some (some s))).1 =
      removeFile (setFile fs (rates_file ++ ".tmp") s) (rates_file ++ ".tmp") := by
  unfold save_current_rates_fs
  simp [existsFile_setFile_self]

theorem save_crash_fs_none (fs : FileSys) (rates_file content : String) :
    (save_current_rates_fs fs rates_file content (some none)).1 =
      if existsFile fs (rates_file ++ ".tmp")
      then removeFile fs (rates_file ++ ".tmp") else fs := rfl

/-- C8: if `save_current_rates` fails before the rename of the temporary
file into place, the previous rates file content is untouched, the
temporary file is removed by the handler, and the exception propagates. -/
theorem save_crash_preserves_store (fs : FileSys)
    (rates_file content : String) (leftover : Option String) :
    (save_current_rates_fs fs rates_file content (some leftover)).2 =
      Except.error "Failed to save rates" ∧
    readFile (save_current_rates_fs fs rates_file content (some leftover)).1
        rates_file = readFile fs rates_file ∧
    existsFile (save_current_rates_fs fs rates_file content (some leftover)).1
        (rates_file ++ ".tmp") = false := by
  have hneq : rates_file ≠ rates_file ++ ".tmp" := ne_append_tmp rates_file
  refine ⟨by rcases leftover with _ | s <;> rfl, ?_, ?_⟩
  · rcases leftover with _ | s
    · rw [save_crash_fs_none]
      by_cases he : existsFile fs (rates_file ++ ".tmp") = true
      · rw [if_pos he]
        exact lookup_removeFile_ne fs rates_file (rates_file ++ ".tmp") hneq
      · rw [if_neg he]
    · rw [save_crash_fs_some]
      show (removeFile _ _).lookup rates_file = fs.lookup rates_file
      rw [lookup_removeFile_ne _ rates_file (rates_file ++ ".tmp") hneq]
      exact lookup_setFile_ne fs rates_file (rates_file ++ ".tmp") s hneq
  · rcases leftover with _ | s
    · rw [save_crash_fs_none]
      by_cases he : existsFile fs (rates_file ++ ".tmp") = true
      · rw [if_pos he]
        show ((removeFile fs (rates_file ++ ".tmp")).lookup
          (rates_file ++ ".tmp")).isSome = false
        rw [lookup_removeFile_self]
        rfl
      · rw [if_neg he]
        simpa using he
    · rw [save_crash_fs_some]
      show ((removeFile _ (rates_file ++ ".tmp")).lookup
        (rates_file ++ ".tmp")).isSome = false
      rw [lookup_removeFile_self]
      rfl

/-! ## History lemmas and the append-only claim (C9) -/

theorem mapM_ok_of_forall {α β : Type} (f : α → Except String β) (g : α → β)
    (l : List α) (h : ∀ a ∈ l, f a = Except.ok (g a)) :
    l.mapM f = Except.ok (l.map g) := by
  induction l with
  | nil => rfl
  | cons a rest ih =>
    rw [List.mapM_cons, h a (by simp),
      ih (fun x hx => h x (by simp [hx]))]
    rfl

theorem make_history_record_eq_total (timestamp : String)
    (source_map : List (String × String)) (pr : String × ℚ)
    (h : (pySplitChar '_' pr.1).length = 2) :
    make_history_record timestamp source_map pr =
      Except.ok (make_history_record_total timestamp source_map pr) := by
  rcases hs : pySplitChar '_' pr.1 with _ | ⟨a, _ | ⟨b, _ | ⟨c, rest⟩⟩⟩
  · rw [hs] at h; simp at h
  · rw [hs] at h; simp at h
  · simp [make_history_record, make_history_record_total, split_pair, hs]
  · rw [hs] at h; simp at h

/-- C9: `append_to_history` keeps every previously stored record unchanged as
a prefix and appends exactly one new record per pair of the mapping (pair
keys being well-formed `FROM_TO` strings) — the history grows monotonically. -/
theorem append_to_history_spec (history : List HistoryRecord)
    (rates : List (String × ℚ)) (source_map : List (String × String))
    (ts : String)
    (hkeys : ∀ pr ∈ rates, (pySplitChar '_' pr.1).length = 2) :
    append_to_history history rates source_map ts =
      Except.ok (history ++ rates.map (make_history_record_total ts source_map)) ∧
    (rates.map (make_history_record_total ts source_map)).length = rates.length ∧
    history <+: history ++ rates.map (make_history_record_total ts source_map) := by
  refine ⟨?_, by simp, ⟨_, rfl⟩⟩
  unfold append_to_history
  rw [mapM_ok_of_forall _ (make_history_record_total ts source_map) rates
    (fun pr hpr => make_history_record_eq_total ts source_map pr (hkeys pr hpr))]

/-- Concrete instance of `append_to_history_spec`: one old record survives
as the prefix and one new record is appended for `BTC_USD`. -/
theorem append_to_history_spec_witness :
    append_to_history [⟨"OLD", "BTC", "USD", 1, "T0", "S"⟩]
        [("BTC_USD", 50000)] [] "T1" =
      Except.ok ([⟨"OLD", "BTC", "USD", 1, "T0", "S"⟩] ++
        [("BTC_USD", (50000 : ℚ))].map (make_history_record_total "T1" [])) :=
  (append_to_history_spec [⟨"OLD", "BTC", "USD", 1, "T0", "S"⟩]
      [("BTC_USD", 50000)] [] "T1" (by decide)).1

/-! ## Updater lemmas and the partial-failure claim (C1) -/

theorem dictInsert_not_mem {β : Type} (m : List (String × β)) (k : String)
    (v : β) (h : k ∉ m.map Prod.fst) : dictInsert m k v = m ++ [(k, v)] := by
  have hany : m.any (fun e => e.1 == k) = false := by
    by_contra hc
    rw [Bool.not_eq_false, List.any_eq_true] at hc
    obtain ⟨e, he, hk⟩ := hc
    exact h (List.mem_map.mpr ⟨e, he, by simpa using hk⟩)
  simp [dictInsert, hany]

theorem foldl_dictInsert_eq_append {β : Type} :
    ∀ (rates : List (String × β)) (m : List (String × β)),
      (m.map Prod.fst ++ rates.map Prod.fst).Nodup →
      rates.foldl (fun acc pr => dictInsert acc pr.1 pr.2) m = m ++ rates
  | [], m, _ => by simp
  | pr :: rest, m, h => by
    rw [List.foldl_cons]
    have hk : pr.1 ∉ m.map Prod.fst := by
      rw [List.map_cons, List.nodup_append] at h
      intro hmem
      exact h.2.2 hmem (by simp)
    rw [dictInsert_not_mem m pr.1 pr.2 hk]
    have h2 : ((m ++ [pr]).map Prod.fst ++ rest.map Prod.fst).Nodup := by
      simpa [List.append_assoc] using h
    rw [foldl_dictInsert_eq_append rest (m ++ [pr]) h2]
    simp

/-- C1: an update run over two configured providers where exactly one raises
`ApiRequestError` and the other returns a non-empty mapping, with
persistence succeeding, reports `success = true`, `total_rates` equal to the
succeeding provider's pair count, exactly one error entry (for the failing
provider), and exactly the succeeding provider in `successful_sources` —
in either provider order. -/
theorem run_update_partial_failure (fc sc : Client) (msg : String)
    (rates : List (String × ℚ)) (clients : List Client) (ts : String)
    (hf : fc.fetch = FetchOutcome.apiError msg)
    (hs : sc.fetch = FetchOutcome.ok rates)
    (hne : rates ≠ [])
    (hnodup : (rates.map Prod.fst).Nodup)
    (horder : clients = [fc, sc] ∨ clients = [sc, fc]) :
    (run_update clients none (Except.ok ()) ts).success = true ∧
    (run_update clients none (Except.ok ()) ts).total_rates = rates.length ∧
    (run_update clients none (Except.ok ()) ts).errors =
      ["✗ " ++ fc.name ++ ": FAILED - " ++ msg] ∧
    (run_update clients none (Except.ok ()) ts).successful_sources = [sc.name] := by
  have hfold : rates.foldl (fun m pr => dictInsert m pr.1 pr.2) [] = rates := by
    simpa using foldl_dictInsert_eq_append rates [] (by simpa using hnodup)
  have hsuccess : decide (0 < rates.length) = true := by
    rw [decide_eq_true_iff]
    exact List.length_pos.mpr hne
  rcases horder with rfl | rfl <;>
    refine ⟨?_, ?_, ?_, ?_⟩ <;>
      simp [run_update, process_client, skip_client, hf, hs, hfold, hsuccess,
        ite_self]

/-- Concrete instance of `run_update_partial_failure`: a failed fiat client,
a crypto client returning two pairs, persistence succeeding. -/
theorem run_update_partial_failure_witness :
    (run_update
        [⟨"ExchangeRateApiClient", FetchOutcome.apiError "Connection error"⟩,
         ⟨"CoinGeckoClient",
          FetchOutcome.ok [("BTC_USD", 50000), ("ETH_USD", 3000)]⟩]
        none (Except.ok ()) "T").success = true ∧
    (run_update
        [⟨"ExchangeRateApiClient", FetchOutcome.apiError "Connection error"⟩,
         ⟨"CoinGeckoClient",
          FetchOutcome.ok [("BTC_USD", 50000), ("ETH_USD", 3000)]⟩]
        none (Except.ok ()) "T").total_rates =
      [("BTC_USD", (50000 : ℚ)), ("ETH_USD", 3000)].length ∧
    (run_update
        [⟨"ExchangeRateApiClient", FetchOutcome.apiError "Connection error"⟩,
         ⟨"CoinGeckoClient",
          FetchOutcome.ok [("BTC_USD", 50000), ("ETH_USD", 3000)]⟩]
        none (Except.ok ()) "T").errors =
      ["✗ " ++ "ExchangeRateApiClient" ++ ": FAILED - " ++ "Connection error"] ∧
    (run_update
        [⟨"ExchangeRateApiClient", FetchOutcome.apiError "Connection error"⟩,
         ⟨"CoinGeckoClient",
          FetchOutcome.ok [("BTC_USD", 50000), ("ETH_USD", 3000)]⟩]
        none (Except.ok ()) "T").successful_sources = ["CoinGeckoClient"] :=
  run_update_partial_failure
    ⟨"ExchangeRateApiClient", FetchOutcome.apiError "Connection error"⟩
    ⟨"CoinGeckoClient", FetchOutcome.ok [("BTC_USD", 50000), ("ETH_USD", 3000)]⟩
    "Connection error" [("BTC_USD", 50000), ("ETH_USD", 3000)]
    [⟨"ExchangeRateApiClient", FetchOutcome.apiError "Connection error"⟩,
     ⟨"CoinGeckoClient", FetchOutcome.ok [("BTC_USD", 50000), ("ETH_USD", 3000)]⟩]
    "T" rfl rfl (by decide) (by decide) (Or.inl rfl)

/-! ## Retry-policy claims (C4) -/

/-- C4 counterexample: the fiat client performs no retry at all.  With an
HTTP 429 on its first request and a successful response available on the
next one, `ExchangeRateApiClient.fetch_rates` raises `ApiRequestError`
after exactly one request — it never reaches the retry that the claim
asserts for "both provider variants". -/
theorem fiat_429_no_retry_counterexample :
    exchangerate_fetch_rates (some "KEY") ["EUR"] "USD"
        (fun n => if n = 0
          then HttpOutcome.response ⟨429, "success", "unknown", [("EUR", 1)]⟩
          else HttpOutcome.response ⟨200, "success", "unknown", [("EUR", 1)]⟩) =
      (Except.error "Rate limit exceeded (429 Too Many Requests)", 1) := rfl

/-- C4 amended: only the crypto-side `_fetch_with_retry` retries.  On HTTP
429 it retries up to 3 attempts with exponential backoff (sleeping 1s then
2s before the second and third attempts; when all three attempts are
rate-limited it sleeps 1s, 2s, 4s and fails with `Max retries exceeded`);
timeouts and connection failures are retried up to the same bound of 3
attempts but with *no* backoff sleep, failing with `ProviderError` carrying
the last cause; the fiat client's `fetch_rates` performs no retry — a 429
on its single request raises `ProviderError` immediately. -/
theorem retry_policy_amended :
    (∀ (outcomes : Nat → AttemptOut) (body : String),
      outcomes 0 = AttemptOut.status429 → outcomes 1 = AttemptOut.status429 →
      outcomes 2 = AttemptOut.success body →
      fetch_with_retry outcomes 3 = (Except.ok body, [1, 2])) ∧
    (∀ outcomes : Nat → AttemptOut,
      (∀ n, outcomes n = AttemptOut.status429) →
      fetch_with_retry outcomes 3 =
        (Except.error "Max retries exceeded", [1, 2, 4])) ∧
    (∀ outcomes : Nat → AttemptOut,
      (∀ n, outcomes n = AttemptOut.timeout) →
      fetch_with_retry outcomes 3 = (Except.error "Request timeout", [])) ∧
    (∀ outcomes : Nat → AttemptOut,
      (∀ n, outcomes n = AttemptOut.connError) →
      fetch_with_retry outcomes 3 = (Except.error "Connection error", [])) ∧
    (∀ (key : String) (fiats : List String) (base : String)
        (http : Nat → HttpOutcome) (r : FiatResponse),
      key ≠ "" → http 0 = HttpOutcome.response r → r.status_code = 429 →
      exchangerate_fetch_rates (some key) fiats base http =
        (Except.error "Rate limit exceeded (429 Too Many Requests)", 1)) := by
  refine ⟨?_, ?_, ?_, ?_, ?_⟩
  · intro outcomes body h0 h1 h2
    simp [fetch_with_retry, fetch_with_retry_go, h0, h1, h2]
  · intro outcomes h
    simp [fetch_with_retry, fetch_with_retry_go, h]
  · intro outcomes h
    simp [fetch_with_retry, fetch_with_retry_go, h]
  · intro outcomes h
    simp [fetch_with_retry, fetch_with_retry_go, h]
  · intro key fiats base http r hkey hhttp h429
    simp [exchangerate_fetch_rates, hhttp, h429, hkey]

/-- Concrete instance of `retry_policy_amended`: a 429-then-success stream
retried by `_fetch_with_retry` with sleeps `[1]`, and the fiat client
failing after its single 429 request. -/
theorem retry_policy_amended_witness :
    fetch_with_retry
        (fun n => if n = 0 then AttemptOut.status429
          else if n = 1 then AttemptOut.status429 else AttemptOut.success "B")
        3 = (Except.ok "B", [1, 2]) ∧
    exchangerate_fetch_rates (some "KEY") ["EUR"] "USD"
        (fun _ => HttpOutcome.response ⟨429, "x", "unknown", []⟩) =
      (Except.error "Rate limit exceeded (429 Too Many Requests)", 1) :=
  ⟨retry_policy_amended.1
      (fun n => if n = 0 then AttemptOut.status429
        else if n = 1 then AttemptOut.status429 else AttemptOut.success "B")
      "B" rfl rfl rfl,
   retry_policy_amended.2.2.2.2 "KEY" ["EUR"] "USD"
      (fun _ => HttpOutcome.response ⟨429, "x", "unknown", []⟩)
      ⟨429, "x", "unknown", []⟩ (by decide) rfl rfl⟩

end ValutaTradeHub
